import Mathlib

/-!
Verification of the fetch-resolve-cache pipeline of `src/music_server.py`
(a Flask music server).  The Python source is shallowly embedded below:

* `get_cache_id` (source lines 22-23) — `hashlib.md5(query.encode("utf-8")).hexdigest()`,
  embedded as a full executable MD5 (RFC 1321) over the UTF-8 bytes of the query,
  with 32-bit words represented as `Nat` reduced modulo `2 ^ 32`.
* `make_meta_json` (lines 25-35) — the metadata record builder.
* `stream_pcm` (lines 39-138) — the resolve pipeline, embedded as a pure
  function of the filesystem state and of oracles describing the external
  collaborators (YouTube search, yt-dlp download, YTMusic lyrics, transcript
  fallback).  File writes are emitted as an effect trace so that intermediate
  (mid-run) filesystem states are inspectable.
* `serve_cache` (lines 142-162) — the static artifact server, embedded at the
  path-string level (`os.path.join` semantics) to analyse path confinement.
-/

set_option maxRecDepth 8000

namespace MusicServer

/-! ## MD5 (the embedding of `hashlib.md5`, used by `get_cache_id`) -/

/-- `2 ^ 32`, the modulus for MD5 32-bit word arithmetic. -/
def M32 : Nat := 4294967296

/-- Left-rotation of a 32-bit word (argument assumed `< 2 ^ 32`). -/
def rotl32 (x s : Nat) : Nat :=
  ((x <<< s) % M32) ||| (x >>> (32 - s))

/-- MD5 round function F (RFC 1321): `(b ∧ c) ∨ (¬b ∧ d)` on 32-bit words. -/
def md5F (b c d : Nat) : Nat := (b &&& c) ||| ((b ^^^ 4294967295) &&& d)

/-- MD5 round function G: `(d ∧ b) ∨ (¬d ∧ c)`. -/
def md5G (b c d : Nat) : Nat := (d &&& b) ||| ((d ^^^ 4294967295) &&& c)

/-- MD5 round function H: `b ⊕ c ⊕ d`. -/
def md5H (b c d : Nat) : Nat := b ^^^ c ^^^ d

/-- MD5 round function I: `c ⊕ (b ∨ ¬d)`. -/
def md5I (b c d : Nat) : Nat := c ^^^ (b ||| (d ^^^ 4294967295))

/-- The 64 MD5 sine-derived constants `K[i] = ⌊|sin(i+1)| · 2^32⌋` (RFC 1321). -/
def kTable : List Nat :=
  [0xd76aa478, 0xe8c7b756, 0x242070db, 0xc1bdceee,
   0xf57c0faf, 0x4787c62a, 0xa8304613, 0xfd469501,
   0x698098d8, 0x8b44f7af, 0xffff5bb1, 0x895cd7be,
   0x6b901122, 0xfd987193, 0xa679438e, 0x49b40821,
   0xf61e2562, 0xc040b340, 0x265e5a51, 0xe9b6c7aa,
   0xd62f105d, 0x02441453, 0xd8a1e681, 0xe7d3fbc8,
   0x21e1cde6, 0xc33707d6, 0xf4d50d87, 0x455a14ed,
   0xa9e3e905, 0xfcefa3f8, 0x676f02d9, 0x8d2a4c8a,
   0xfffa3942, 0x8771f681, 0x6d9d6122, 0xfde5380c,
   0xa4beea44, 0x4bdecfa9, 0xf6bb4b60, 0xbebfbc70,
   0x289b7ec6, 0xeaa127fa, 0xd4ef3085, 0x04881d05,
   0xd9d4d039, 0xe6db99e5, 0x1fa27cf8, 0xc4ac5665,
   0xf4292244, 0x432aff97, 0xab9423a7, 0xfc93a039,
   0x655b59c3, 0x8f0ccc92, 0xffeff47d, 0x85845dd1,
   0x6fa87e4f, 0xfe2ce6e0, 0xa3014314, 0x4e0811a1,
   0xf7537e82, 0xbd3af235, 0x2ad7d2bb, 0xeb86d391]

/-- The 64 per-round left-rotation amounts (RFC 1321). -/
def shiftTable : List Nat :=
  [7, 12, 17, 22, 7, 12, 17, 22, 7, 12, 17, 22, 7, 12, 17, 22,
   5, 9, 14, 20, 5, 9, 14, 20, 5, 9, 14, 20, 5, 9, 14, 20,
   4, 11, 16, 23, 4, 11, 16, 23, 4, 11, 16, 23, 4, 11, 16, 23,
   6, 10, 15, 21, 6, 10, 15, 21, 6, 10, 15, 21, 6, 10, 15, 21]

/-- Assemble little-endian 32-bit words from a byte list (4 bytes per word). -/
def wordsLE : List Nat → List Nat
  | b0 :: b1 :: b2 :: b3 :: rest =>
      (b0 + 256 * b1 + 65536 * b2 + 16777216 * b3) :: wordsLE rest
  | _ => []

/-- Serialize a 32-bit word to 4 little-endian bytes. -/
def wordBytesLE (w : Nat) : List Nat :=
  [w % 256, (w >>> 8) % 256, (w >>> 16) % 256, (w >>> 24) % 256]

/-- One MD5 round step: state `(a, b, c, d)`, round index `i`,
message words `m` (16 little-endian words of the current block). -/
def md5Step (m : List Nat) (st : Nat × Nat × Nat × Nat) (i : Nat) :
    Nat × Nat × Nat × Nat :=
  let a := st.1
  let b := st.2.1
  let c := st.2.2.1
  let d := st.2.2.2
  let f := if i < 16 then md5F b c d
           else if i < 32 then md5G b c d
           else if i < 48 then md5H b c d
           else md5I b c d
  let g := if i < 16 then i
           else if i < 32 then (5 * i + 1) % 16
           else if i < 48 then (3 * i + 5) % 16
           else (7 * i) % 16
  let tmp := (a + f + kTable.getD i 0 + m.getD g 0) % M32
  let nb := (b + rotl32 tmp (shiftTable.getD i 0)) % M32
  (d, nb, b, c)

/-- MD5 block compression: run the 64 rounds on one 64-byte block and add the
result to the incoming state (all words modulo `2 ^ 32`). -/
def md5Compress (st : Nat × Nat × Nat × Nat) (block : List Nat) :
    Nat × Nat × Nat × Nat :=
  let m := wordsLE block
  let r := (List.range 64).foldl (md5Step m) st
  ((st.1 + r.1) % M32, (st.2.1 + r.2.1) % M32,
   (st.2.2.1 + r.2.2.1) % M32, (st.2.2.2 + r.2.2.2) % M32)

/-- MD5 initial state (RFC 1321). -/
def md5Init : Nat × Nat × Nat × Nat :=
  (0x67452301, 0xefcdab89, 0x98badcfe, 0x10325476)

/-- MD5 padding: append `0x80`, zero bytes to 56 mod 64, then the original
bit length as a 64-bit little-endian quantity. -/
def padMsg (msg : List Nat) : List Nat :=
  let len := msg.length
  let z := (119 - len % 64) % 64
  msg ++ [128] ++ List.replicate z 0 ++
    (List.range 8).map (fun i => ((len * 8) >>> (8 * i)) % 256)

/-- Split a byte list into successive 64-byte blocks (structurally, so that the
kernel can evaluate it; a trailing partial block cannot occur on padded input). -/
def chunks64Aux : List Nat → List Nat → List (List Nat)
  | [], _ => []
  | b :: t, acc =>
      let acc2 := acc ++ [b]
      if acc2.length = 64 then acc2 :: chunks64Aux t [] else chunks64Aux t acc2

/-- Serialize the final MD5 state to the 16-byte digest. -/
def md5Final (st : Nat × Nat × Nat × Nat) : List Nat :=
  wordBytesLE st.1 ++ wordBytesLE st.2.1 ++ wordBytesLE st.2.2.1 ++ wordBytesLE st.2.2.2

/-- The 16-byte MD5 digest of a byte list. -/
def md5Digest (msg : List Nat) : List Nat :=
  md5Final ((chunks64Aux (padMsg msg) []).foldl md5Compress md5Init)

/-- Lowercase hexadecimal digit for a nibble (total; values `≥ 16` cannot
occur on digest bytes but default to `'f'`): code 48 is `'0'`, code 97 is
`'a'`. -/
def hexDigit (n : Nat) : Char :=
  if n < 10 then Char.ofNat (48 + n)
  else if n < 16 then Char.ofNat (87 + n)
  else 'f'

/-- Two lowercase hex digits of one byte (hashlib's `hexdigest` byte order). -/
def byteHex (b : Nat) : List Char := [hexDigit (b / 16 % 16), hexDigit (b % 16)]

/-- UTF-8 encoding of one character as a byte list (Python `str.encode("utf-8")`
agrees with this on every Unicode scalar value). -/
def utf8EncodeCharNat (c : Char) : List Nat :=
  let v := c.toNat
  if v < 128 then [v]
  else if v < 2048 then [192 ||| (v >>> 6), 128 ||| (v &&& 63)]
  else if v < 65536 then
    [224 ||| (v >>> 12), 128 ||| ((v >>> 6) &&& 63), 128 ||| (v &&& 63)]
  else
    [240 ||| (v >>> 18), 128 ||| ((v >>> 12) &&& 63),
     128 ||| ((v >>> 6) &&& 63), 128 ||| (v &&& 63)]

/-- UTF-8 byte sequence of a string. -/
def utf8Bytes (s : String) : List Nat := s.data.flatMap utf8EncodeCharNat

/-- Lowercase-hex MD5 of a byte list (`hashlib.md5(...).hexdigest()`). -/
def md5HexString (msg : List Nat) : String := String.mk ((md5Digest msg).flatMap byteHex)

/-- Embeds `get_cache_id` (source lines 22-23):
`hashlib.md5(query.encode("utf-8")).hexdigest()`. -/
def get_cache_id (query : String) : String := md5HexString (utf8Bytes query)

-- MD5 reference test vectors (RFC 1321 appendix A.5).
example : get_cache_id "" = "d41d8cd98f00b204e9800998ecf8427e" := by decide
example : get_cache_id "abc" = "900150983cd24fb0d6963f7d28e17f72" := by decide
example : get_cache_id "a" = "0cc175b9c0f1b6a831c399e269772661" := by decide

/-! ## Data model: cache artifacts, filesystem state, metadata records -/

/-- The cache root directory (source line 13: `CACHE_DIR = "music_cache"`). -/
def CACHE_DIR : String := "music_cache"

/-- The metadata record built by `make_meta_json` (source lines 25-35); field
order follows the Python dict literal. -/
structure Meta where
  artist : String
  audio_url : String
  cover_url : String
  duration : Nat
  from_cache : Bool
  lyric_url : String
  title : String
deriving DecidableEq, Repr

/-- Embeds `make_meta_json` (source lines 25-35).  Note that the source sets
`"from_cache": True` unconditionally in this builder. -/
def make_meta_json (cache_id artist title : String) (duration : Nat)
    (thumbnail : String) : Meta :=
  ⟨artist,
   "/" ++ CACHE_DIR ++ "/" ++ cache_id ++ ".mp3",
   thumbnail,
   duration,
   true,
   "/" ++ CACHE_DIR ++ "/" ++ cache_id ++ ".lrc",
   title⟩

/-- The three per-key artifact kinds: `<id>.mp3`, `<id>.lrc`, `<id>.json`
(source lines 48-50). -/
inductive ArtKind
  | mp3
  | lrc
  | json
deriving DecidableEq, Repr

/-- Filesystem paths the server touches.  Artifact paths
`music_cache/<id>.<ext>` are represented injectively by their key and kind
(cache ids are 32-char hex strings, so the string paths decompose uniquely);
`cookieCopy` is the writable cookie copy `cookiesyt_writable.txt`
(source line 94). -/
inductive FsPath
  | art (id : String) (kind : ArtKind)
  | cookieCopy
deriving DecidableEq, Repr

/-- Contents a file can hold in the model.  `truncated` is the observable
state of a file right after `open(path, "w")` has created/truncated it but
before its content has been fully written (the source writes in place, not
write-then-rename). -/
inductive FileData
  | audio (videoId : String)
  | text (s : String)
  | metaFile (m : Meta)
  | truncated
  | cookie
deriving DecidableEq, Repr

/-- The filesystem as an association list (later entries shadowed by
earlier ones; `setFs` prepends). -/
abbrev Fs := List (FsPath × FileData)

/-- Look a path up in the filesystem. -/
def lookupFs : Fs → FsPath → Option FileData
  | [], _ => none
  | (q, d) :: t, p => if q = p then some d else lookupFs t p

/-- Write (create or overwrite) a file. -/
def setFs (p : FsPath) (d : FileData) (fs : Fs) : Fs := (p, d) :: fs

/-- Write effects emitted by a pipeline run, in order.  `openTrunc` and
`writeAll` split one Python `open(path, "w"); write` into its observable
halves; `fetchedAudio` is yt-dlp materialising `<id>.mp3` (source line 103);
`copyCookie` is the `shutil.copy` to the writable cookie file (line 95). -/
inductive Eff
  | fetchedAudio (id : String) (videoId : String)
  | openTrunc (p : FsPath)
  | writeAll (p : FsPath) (d : FileData)
  | copyCookie
deriving DecidableEq, Repr

/-- Apply one effect to the filesystem. -/
def applyEff (fs : Fs) (e : Eff) : Fs :=
  match e with
  | Eff.fetchedAudio id vid => setFs (FsPath.art id ArtKind.mp3) (FileData.audio vid) fs
  | Eff.openTrunc p => setFs p FileData.truncated fs
  | Eff.writeAll p d => setFs p d fs
  | Eff.copyCookie => setFs FsPath.cookieCopy FileData.cookie fs

/-- Apply a list of effects left to right. -/
def applyEffs (effs : List Eff) (fs : Fs) : Fs := effs.foldl applyEff fs

/-! ## External collaborators (oracles) -/

/-- One YouTube search result (source lines 70-74: `videoId`, `title`,
`channelTitle`, high thumbnail URL). -/
structure Video where
  videoId : String
  title : String
  channelTitle : String
  thumbHigh : String

/-- The YTMusic `get_song` result, reduced to what the source inspects
(line 114): `some browseId` iff `"lyrics" in song_info` and
`"browseId" in song_info["lyrics"]`. -/
structure SongInfo where
  lyricsBrowseId : Option String

/-- Oracles for the external collaborators of one pipeline run, with the
query already applied.  Exceptions are modelled as `Except.error`:

* `searchItems` — `youtube.search().list(q=query, ...)` items (lines 60-65);
* `cookieWritable` — whether `open("/etc/secrets/cookiesyt.txt", "a")`
  succeeds (lines 90-96);
* `download` — the yt-dlp call (lines 101-106): error detail, or the
  extracted info's optional `duration`;
* `ytmSearch` — `ytm.search(query, filter="songs")` videoIds (line 111);
* `getSong` — `ytm.get_song(videoId)` (line 113);
* `getLyrics` — `ytm.get_lyrics(browseId)` (line 115): `some s` iff
  `lyrics_data` is truthy, `s` being its `"lyrics"` value (`""` if falsy);
* `transcript` — `YouTubeTranscriptApi().fetch(video_id, languages=...)`
  followed by `TextFormatter().format_transcript` (lines 123-125). -/
structure Ext where
  searchItems : List Video
  cookieWritable : Bool
  download : Except String (Option Nat)
  ytmSearch : Except Unit (List String)
  getSong : String → Except Unit SongInfo
  getLyrics : String → Except Unit (Option String)
  transcript : String → List String → Except Unit String

/-! ## The resolve pipeline (`stream_pcm`, source lines 39-138) -/

/-- HTTP-level outcomes of a run.  `crash` is an unhandled exception
(Flask 500), which in this model only arises when the `.json` file exists
but does not hold a metadata record (`json.load` would raise). -/
inductive Resp
  | ok (m : Meta)
  | badRequest (msg : String)
  | notFound (msg : String)
  | upstream (msg : String)
  | crash
deriving DecidableEq, Repr

/-- The observable outcome of one `stream_pcm` run: the response, the write
effects in program order, and how often each external collaborator was
invoked (`transcriptCalls` records the arguments of each transcript call). -/
structure RunOut where
  resp : Resp
  effs : List Eff
  searchCalls : Nat
  fetchCalls : Nat
  primaryCalls : Nat
  transcriptCalls : List (String × List String)
deriving DecidableEq, Repr

/-- Embeds the primary (YTMusic) lyric attempt, source lines 110-119: the
`try` block sets `lyrics_text` to a non-empty string only when every step of
the chain succeeds with truthy values; any exception leaves it `""`. -/
def primaryLyrics (ext : Ext) : String :=
  match ext.ytmSearch with
  | Except.error _ => ""
  | Except.ok [] => ""
  | Except.ok (vid :: _) =>
    match ext.getSong vid with
    | Except.error _ => ""
    | Except.ok si =>
      match si.lyricsBrowseId with
      | none => ""
      | some bid =>
        match ext.getLyrics bid with
        | Except.error _ => ""
        | Except.ok none => ""
        | Except.ok (some s) => if s = "" then "" else s

/-- Embeds the lyric stage, source lines 108-127: primary attempt, then —
only when `lyrics_text` is still falsy — the transcript fallback with the
language priority list `["vi", "en"]`, whose exceptions yield `""`.
Returns the final `lyrics_text` and the transcript calls made. -/
def lyricStage (ext : Ext) (videoId : String) : String × List (String × List String) :=
  let t := primaryLyrics ext
  if t = "" then
    ⟨match ext.transcript videoId ["vi", "en"] with
      | Except.ok txt => txt
      | Except.error _ => "",
     [(videoId, ["vi", "en"])]⟩
  else ⟨t, []⟩

/-- Embeds the cache-miss part of `stream_pcm` (source lines 59-138): search
(404 on empty items), cookie-file handling, download (500 on exception),
lyric stage, then the `.lrc` and `.json` writes in that order. -/
def missRun (cid : String) (ext : Ext) : RunOut :=
  match ext.searchItems with
  | [] => ⟨Resp.notFound "No video found", [], 1, 0, 0, []⟩
  | v :: _ =>
    let ce := if ext.cookieWritable then [] else [Eff.copyCookie]
    match ext.download with
    | Except.error e => ⟨Resp.upstream ("Download failed: " ++ e), ce, 1, 1, 0, []⟩
    | Except.ok info =>
      let ly := lyricStage ext v.videoId
      let data := make_meta_json cid v.channelTitle v.title (info.getD 0) v.thumbHigh
      ⟨Resp.ok data,
       ce ++
        [Eff.fetchedAudio cid v.videoId,
         Eff.openTrunc (FsPath.art cid ArtKind.lrc),
         Eff.writeAll (FsPath.art cid ArtKind.lrc) (FileData.text ly.1),
         Eff.openTrunc (FsPath.art cid ArtKind.json),
         Eff.writeAll (FsPath.art cid ArtKind.json) (FileData.metaFile data)],
       1, 1, 1, ly.2⟩

/-- Embeds `data["from_cache"] = True` on the cache-hit path (source line 56). -/
def setFromCacheTrue (m : Meta) : Meta :=
  ⟨m.artist, m.audio_url, m.cover_url, m.duration, true, m.lyric_url, m.title⟩

/-- Embeds the cache check and dispatch of `stream_pcm` (source lines 52-57):
if `music_cache/<cid>.json` exists it is loaded and returned with
`from_cache` set to `True`; a `.json` file that is not a metadata record
makes `json.load` raise (`crash`); otherwise the miss path runs. -/
def resolveRun (fs : Fs) (query : String) (ext : Ext) : RunOut :=
  match lookupFs fs (FsPath.art (get_cache_id query) ArtKind.json) with
  | some (FileData.metaFile m) => ⟨Resp.ok (setFromCacheTrue m), [], 0, 0, 0, []⟩
  | some _ => ⟨Resp.crash, [], 0, 0, 0, []⟩
  | none => missRun (get_cache_id query) ext

/-- Drop leading whitespace characters from a character list. -/
def dropWsL : List Char → List Char
  | [] => []
  | c :: t => if c.isWhitespace then dropWsL t else c :: t

/-- Structural equivalent of Python `str.strip()` / `String.trim`: remove
whitespace from both ends (they agree on ASCII whitespace). -/
def pyStrip (s : String) : String :=
  String.mk ((dropWsL (dropWsL s.data).reverse).reverse)

/-- Embeds `query = f"{song} {artist}".strip()` (source line 46). -/
def queryOf (s : String) (artistArg : Option String) : String :=
  pyStrip (s ++ " " ++ artistArg.getD "")

/-- Embeds `stream_pcm` (source lines 39-138).  `song` and `artistArg` are
`request.args.get("song")` and `request.args.get("artist", "")`; a missing or
empty `song` (`if not song`) yields the 400 response before anything else. -/
def stream_pcm (fs : Fs) (song artistArg : Option String) (ext : Ext) : RunOut :=
  match song with
  | none => ⟨Resp.badRequest "Missing song", [], 0, 0, 0, []⟩
  | some s =>
    if s = "" then ⟨Resp.badRequest "Missing song", [], 0, 0, 0, []⟩
    else resolveRun fs (queryOf s artistArg) ext

/-! ## The static artifact server (`serve_cache`, source lines 142-162) -/

/-- Whether a path string is absolute (starts with `/`); structural
equivalent of `String.startsWith "/"`. -/
def startsWithSlash (s : String) : Bool := s.data.head? = some '/'

/-- Embeds `os.path.join(CACHE_DIR, filename)` for this call site:
an absolute second component discards the first; otherwise the components
are joined with `/` (`CACHE_DIR` has no trailing slash). -/
def pyJoin (a b : String) : String :=
  if startsWithSlash b then b else a ++ "/" ++ b

/-- Embeds the MIME detection of `serve_cache` (source lines 148-156). -/
def mimeOf (filename : String) : String :=
  if filename.endsWith ".mp3" then "audio/mpeg"
  else if filename.endsWith ".lrc" || filename.endsWith ".txt" then
    "text/plain; charset=utf-8"
  else if filename.endsWith ".json" then "application/json"
  else "application/octet-stream"

/-- Outcome of a `serve_cache` call: which path (if any) it opens and
streams, the HTTP status, and the content type. -/
structure ServeOut where
  readPath : Option String
  status : Nat
  mime : String
deriving DecidableEq, Repr

/-- Embeds `serve_cache` (source lines 142-162): compute
`os.path.join(CACHE_DIR, filename)`, return 404 without opening anything if
`os.path.exists` fails (`present` abstracts the existence check), otherwise
stream that file.  No sanitisation is applied to `filename`. -/
def serve_cache (present : String → Bool) (filename : String) : ServeOut :=
  let full := pyJoin CACHE_DIR filename
  if present full then ⟨some full, 200, mimeOf filename⟩
  else ⟨none, 404, "application/json"⟩

/-- Split a character list into `/`-separated segments (structural version of
`String.splitOn "/"`, so the kernel can evaluate it). -/
def splitSlash : List Char → List Char → List String
  | [], acc => [String.mk acc.reverse]
  | c :: t, acc =>
    if c = '/' then String.mk acc.reverse :: splitSlash t []
    else splitSlash t (c :: acc)

/-- The `/`-separated segments of a path. -/
def pathSegs (p : String) : List String := splitSlash p.data []

/-- Resolve `.` and `..` segments of a segment list (the filesystem's view of
where the path actually points). -/
def resolveSegs : List String → List String → List String
  | stack, [] => stack.reverse
  | stack, seg :: rest =>
    if seg = "" ∨ seg = "." then resolveSegs stack rest
    else if seg = ".." then
      match stack with
      | [] => resolveSegs [".."] rest
      | top :: more =>
        if top = ".." then resolveSegs (".." :: top :: more) rest
        else resolveSegs more rest
    else resolveSegs (seg :: stack) rest

/-- Whether a (relative or absolute) path points inside the cache root:
after resolving `.`/`..` segments its first segment is `music_cache`. -/
def withinRoot (p : String) : Bool :=
  (resolveSegs [] (pathSegs p)).head? = some CACHE_DIR

example : withinRoot "music_cache/abc.mp3" = true := by decide
example : withinRoot "music_cache/../x" = false := by decide

/-! ## Derived observables and invariants -/

/-- The sixteen lowercase hexadecimal digit characters. -/
def hexChars : List Char := "0123456789abcdef".data

/-- The property C4 asserts of a run's write trace: at no point during
the run does the key's `.json` path hold anything other than a complete
metadata record (i.e. a reader can never observe a half-written record). -/
def metaNeverHalfWritten (effs : List Eff) (fs : Fs) (id : String) : Bool :=
  (List.range (effs.length + 1)).all fun n =>
    match lookupFs (applyEffs (effs.take n) fs) (FsPath.art id ArtKind.json) with
    | none => true
    | some (FileData.metaFile _) => true
    | some _ => false

/-- The invariant of C10: any key whose `.json` artifact exists also has its
`.lrc` artifact. -/
def CacheInv (fs : Fs) : Prop :=
  ∀ id, (lookupFs fs (FsPath.art id ArtKind.json)).isSome →
    (lookupFs fs (FsPath.art id ArtKind.lrc)).isSome

/-! ## Concrete oracle configurations used by witnesses and counterexamples -/

/-- A concrete search result used in witnesses. -/
def vidA : Video := ⟨"vid1", "TitleA", "ChannelA", "thumbA"⟩

/-- Oracles for a fully successful run in which both lyric sources fail. -/
def extOkNoLyrics : Ext :=
  ⟨[vidA], true, Except.ok (some 100), Except.ok [],
   fun _ => Except.error (), fun _ => Except.error (), fun _ _ => Except.error ()⟩

/-- Oracles where the YouTube search returns no items. -/
def extSearchEmpty : Ext :=
  ⟨[], true, Except.ok (some 100), Except.ok [],
   fun _ => Except.error (), fun _ => Except.error (), fun _ _ => Except.error ()⟩

/-- Oracles where the yt-dlp download raises. -/
def extDownloadFails : Ext :=
  ⟨[vidA], true, Except.error "boom", Except.ok [],
   fun _ => Except.error (), fun _ => Except.error (), fun _ _ => Except.error ()⟩

/-- Oracles where the whole primary (YTMusic) chain succeeds with text. -/
def extPrimaryText : Ext :=
  ⟨[vidA], true, Except.ok (some 100), Except.ok ["m1"],
   fun _ => Except.ok ⟨some "b1"⟩, fun _ => Except.ok (some "primary words"),
   fun _ _ => Except.ok "transcript words"⟩

/-- Oracles where the primary lyric source raises and the transcript
fallback succeeds with non-empty text. -/
def extPrimaryRaisesFallbackText : Ext :=
  ⟨[vidA], true, Except.ok (some 100), Except.error (),
   fun _ => Except.error (), fun _ => Except.error (), fun _ _ => Except.ok "la la"⟩

/-! ## Helper lemmas -/

theorem hexDigit_mem (n : Nat) : hexDigit n ∈ hexChars := by
  unfold hexDigit
  by_cases h1 : n < 10
  · rw [if_pos h1]
    interval_cases n <;> decide
  · rw [if_neg h1]
    by_cases h2 : n < 16
    · rw [if_pos h2]
      push_neg at h1
      interval_cases n <;> decide
    · rw [if_neg h2]
      decide

theorem byteHex_mem {c : Char} {b : Nat} (h : c ∈ byteHex b) : c ∈ hexChars := by
  rcases List.mem_cons.mp h with h1 | h2
  · subst h1; exact hexDigit_mem _
  · rcases List.mem_cons.mp h2 with h3 | h4
    · subst h3; exact hexDigit_mem _
    · exact absurd h4 (List.not_mem_nil c)

theorem md5Final_length (st : Nat × Nat × Nat × Nat) : (md5Final st).length = 16 := rfl

theorem length_flatMap_byteHex (l : List Nat) :
    (l.flatMap byteHex).length = 2 * l.length := by
  induction l with
  | nil => rfl
  | cons a t ih =>
    simp only [List.flatMap_cons, List.length_append, List.length_cons, ih, byteHex,
      List.length_cons, List.length_nil]
    omega

theorem lookupFs_setFs (fs : Fs) (p q : FsPath) (d : FileData) :
    lookupFs (setFs q d fs) p = if q = p then some d else lookupFs fs p := by
  simp [setFs, lookupFs]

theorem lookupFs_setFs_eq (fs : Fs) (p : FsPath) (d : FileData) :
    lookupFs (setFs p d fs) p = some d := by
  simp [lookupFs_setFs]

theorem lookupFs_setFs_ne (fs : Fs) (p q : FsPath) (d : FileData) (h : q ≠ p) :
    lookupFs (setFs q d fs) p = lookupFs fs p := by
  simp [lookupFs_setFs, h]

theorem lookupFs_isSome_setFs (fs : Fs) (p q : FsPath) (d : FileData)
    (h : (lookupFs fs p).isSome) : (lookupFs (setFs q d fs) p).isSome := by
  by_cases hqp : q = p
  · subst hqp; simp [lookupFs_setFs_eq]
  · rw [lookupFs_setFs_ne fs p q d hqp]; exact h

theorem missRun_searchCalls (cid : String) (ext : Ext) :
    (missRun cid ext).searchCalls = 1 := by
  unfold missRun
  cases ext.searchItems with
  | nil => rfl
  | cons v tl =>
    cases ext.download with
    | error e => rfl
    | ok info => rfl

theorem resolveRun_resp_ne_badRequest (fs : Fs) (query : String) (ext : Ext)
    (msg : String) : (resolveRun fs query ext).resp ≠ Resp.badRequest msg := by
  unfold resolveRun
  cases lookupFs fs (FsPath.art (get_cache_id query) ArtKind.json) with
  | none =>
    unfold missRun
    cases ext.searchItems with
    | nil => simp
    | cons v tl =>
      cases ext.download with
      | error e => simp
      | ok info => simp
  | some fd => cases fd <;> simp

/-! ## Claim theorems -/

/-- C7: `get_cache_id` is a total pure function on strings whose result is
always a 32-character string of hexadecimal digits, and equal (normalized)
queries always yield equal keys (the function is deterministic — there is no
hidden state, so stability across restarts holds by construction). -/
theorem get_cache_id_total_fixed_width (q : String) :
    (get_cache_id q).length = 32
    ∧ (∀ c ∈ (get_cache_id q).data, c ∈ hexChars)
    ∧ ∀ q2 : String, q = q2 → get_cache_id q = get_cache_id q2 := by
  refine ⟨?_, ?_, ?_⟩
  · show ((md5Digest (utf8Bytes q)).flatMap byteHex).length = 32
    rw [length_flatMap_byteHex]
    unfold md5Digest
    rw [md5Final_length]
  · intro c hc
    have hc2 : c ∈ (md5Digest (utf8Bytes q)).flatMap byteHex := hc
    rcases List.mem_flatMap.mp hc2 with ⟨b, _, hcb⟩
    exact byteHex_mem hcb
  · intro q2 h
    rw [h]

/-- C7 witness: the theorem applied at the concrete query `"a"`. -/
theorem get_cache_id_total_fixed_width_witness :
    (get_cache_id "a").length = 32 ∧ get_cache_id "a" = get_cache_id "a" :=
  ⟨(get_cache_id_total_fixed_width "a").1,
   (get_cache_id_total_fixed_width "a").2.2 "a" rfl⟩

/-- C1: when the metadata artifact for the derived key exists at the start of
a run, `stream_pcm` returns the stored record with `from_cache = true`,
performs zero calls to the media resolver, the audio fetcher and both lyric
sources, and emits no write effects. -/
theorem cache_hit_no_external_calls (fs : Fs) (s : String) (artistArg : Option String)
    (ext : Ext) (m : Meta) (hs : s ≠ "")
    (hm : lookupFs fs (FsPath.art (get_cache_id (queryOf s artistArg)) ArtKind.json)
          = some (FileData.metaFile m)) :
    stream_pcm fs (some s) artistArg ext
      = ⟨Resp.ok (setFromCacheTrue m), [], 0, 0, 0, []⟩ := by
  simp only [stream_pcm]
  rw [if_neg hs]
  simp only [resolveRun]
  rw [hm]

/-- C1 witness: a concrete cached entry is served from cache untouched. -/
theorem cache_hit_no_external_calls_witness :
    stream_pcm
        [(FsPath.art (get_cache_id (queryOf "a" none)) ArtKind.json,
          FileData.metaFile ⟨"Ar", "au", "cov", 7, false, "ly", "Ti"⟩)]
        (some "a") none extOkNoLyrics
      = ⟨Resp.ok (setFromCacheTrue ⟨"Ar", "au", "cov", 7, false, "ly", "Ti"⟩),
         [], 0, 0, 0, []⟩ :=
  cache_hit_no_external_calls _ "a" none extOkNoLyrics _ (by decide) (by decide)

/-- C9: `stream_pcm` answers 400 with an error body exactly when the song
parameter is absent or the empty string, and then performs no external call
and emits no write effect; on every other input the response is never 400. -/
theorem missing_song_400 (fs : Fs) (song artistArg : Option String) (ext : Ext) :
    ((song = none ∨ song = some "") →
      stream_pcm fs song artistArg ext = ⟨Resp.badRequest "Missing song", [], 0, 0, 0, []⟩)
    ∧ (∀ s, song = some s → s ≠ "" →
        ∀ msg, (stream_pcm fs song artistArg ext).resp ≠ Resp.badRequest msg) := by
  constructor
  · rintro (h | h) <;> subst h <;> simp [stream_pcm]
  · rintro s rfl hs msg
    simp only [stream_pcm]
    rw [if_neg hs]
    exact resolveRun_resp_ne_badRequest fs _ ext msg

/-- C9 witness: the two modes at concrete inputs. -/
theorem missing_song_400_witness :
    stream_pcm [] none none extOkNoLyrics
      = ⟨Resp.badRequest "Missing song", [], 0, 0, 0, []⟩
    ∧ (stream_pcm [] (some "a") none extOkNoLyrics).resp ≠ Resp.badRequest "Missing song" :=
  ⟨(missing_song_400 [] none none extOkNoLyrics).1 (Or.inl rfl),
   (missing_song_400 [] (some "a") none extOkNoLyrics).2 "a" rfl (by decide) "Missing song"⟩

/-- C2: bug evidence — on a fresh run with an empty cache (a cache miss) the
immediate response already carries `from_cache = true`, because
`make_meta_json` hardcodes `"from_cache": True` (source line 32); the claimed
`from_cache = false` miss response never occurs. -/
theorem miss_response_from_cache_true :
    (stream_pcm [] (some "a") none extOkNoLyrics).resp
      = Resp.ok (make_meta_json (get_cache_id "a") "ChannelA" "TitleA" 100 "thumbA")
    ∧ (make_meta_json (get_cache_id "a") "ChannelA" "TitleA" 100 "thumbA").from_cache
      = true := by
  constructor
  · decide
  · rfl

/-- C8: bug evidence — for the filename `"../x"` the path `serve_cache`
computes and would stream resolves outside the cache root (path traversal:
`os.path.join` applies no sanitisation); the absent-file half of the claim
does hold: with the file absent the handler answers 404 and opens nothing. -/
theorem serve_cache_path_escape :
    (serve_cache (fun _ => true) "../x").readPath = some "music_cache/../x"
    ∧ withinRoot "music_cache/../x" = false
    ∧ (serve_cache (fun _ => false) "../x").readPath = none
    ∧ (serve_cache (fun _ => false) "../x").status = 404 := by
  decide

/-- C3: a run that fails at resolve (empty search result, answered 404) or at
audio fetch (download exception, answered 500) never writes the metadata
artifact: if the key's `.json` was absent before the run it is absent after,
and a repeated identical query enters the full pipeline again (it performs a
fresh search) instead of hitting a cache entry. -/
theorem failed_run_not_cached (fs : Fs) (s : String) (artistArg : Option String)
    (ext ext2 : Ext) (hs : s ≠ "")
    (hm : lookupFs fs (FsPath.art (get_cache_id (queryOf s artistArg)) ArtKind.json) = none)
    (hfail : ext.searchItems = [] ∨ ∃ e, ext.download = Except.error e) :
    lookupFs (applyEffs (stream_pcm fs (some s) artistArg ext).effs fs)
        (FsPath.art (get_cache_id (queryOf s artistArg)) ArtKind.json) = none
    ∧ (ext.searchItems = [] →
        (stream_pcm fs (some s) artistArg ext).resp = Resp.notFound "No video found")
    ∧ (∀ v tl e, ext.searchItems = v :: tl → ext.download = Except.error e →
        (stream_pcm fs (some s) artistArg ext).resp
          = Resp.upstream ("Download failed: " ++ e))
    ∧ (stream_pcm (applyEffs (stream_pcm fs (some s) artistArg ext).effs fs)
        (some s) artistArg ext2).searchCalls = 1 := by
  have hrun : stream_pcm fs (some s) artistArg ext
      = missRun (get_cache_id (queryOf s artistArg)) ext := by
    simp only [stream_pcm]
    rw [if_neg hs]
    simp only [resolveRun]
    rw [hm]
  have hafter : lookupFs (applyEffs (stream_pcm fs (some s) artistArg ext).effs fs)
      (FsPath.art (get_cache_id (queryOf s artistArg)) ArtKind.json) = none := by
    rw [hrun]
    unfold missRun
    cases hsi : ext.searchItems with
    | nil => simpa [applyEffs] using hm
    | cons v tl =>
      cases hdl : ext.download with
      | error e =>
        cases hcw : ext.cookieWritable with
        | true => simpa [applyEffs] using hm
        | false =>
          simp only [applyEffs, List.foldl, applyEff]
          rw [lookupFs_setFs_ne _ _ _ _ (by simp)]
          exact hm
      | ok info =>
        rcases hfail with hempty | ⟨e, he⟩
        · rw [hsi] at hempty; cases hempty
        · rw [hdl] at he; cases he
  refine ⟨hafter, ?_, ?_, ?_⟩
  · intro hempty
    rw [hrun]
    unfold missRun
    rw [hempty]
  · intro v tl e hsi hdl
    rw [hrun]
    unfold missRun
    rw [hsi, hdl]
  · have h4 : ∀ fs2 : Fs,
        lookupFs fs2 (FsPath.art (get_cache_id (queryOf s artistArg)) ArtKind.json) = none →
        (stream_pcm fs2 (some s) artistArg ext2).searchCalls = 1 := by
      intro fs2 h2
      simp only [stream_pcm]
      rw [if_neg hs]
      simp only [resolveRun]
      rw [h2]
      exact missRun_searchCalls _ ext2
    exact h4 _ hafter

/-- C3 witness: concrete empty-search failure leaves the cache empty and the
retry searches again. -/
theorem failed_run_not_cached_witness :
    lookupFs (applyEffs (stream_pcm [] (some "a") none extSearchEmpty).effs [])
        (FsPath.art (get_cache_id (queryOf "a" none)) ArtKind.json) = none
    ∧ (extSearchEmpty.searchItems = [] →
        (stream_pcm [] (some "a") none extSearchEmpty).resp
          = Resp.notFound "No video found")
    ∧ (∀ v tl e, extSearchEmpty.searchItems = v :: tl →
        extSearchEmpty.download = Except.error e →
        (stream_pcm [] (some "a") none extSearchEmpty).resp
          = Resp.upstream ("Download failed: " ++ e))
    ∧ (stream_pcm (applyEffs (stream_pcm [] (some "a") none extSearchEmpty).effs [])
        (some "a") none extDownloadFails).searchCalls = 1 :=
  failed_run_not_cached [] "a" none extSearchEmpty extDownloadFails
    (by decide) (by decide) (Or.inl rfl)

/-! ### Shared reduction lemmas for the miss path -/

theorem stream_pcm_miss (fs : Fs) (s : String) (artistArg : Option String)
    (ext : Ext) (hs : s ≠ "")
    (hm : lookupFs fs (FsPath.art (get_cache_id (queryOf s artistArg)) ArtKind.json) = none) :
    stream_pcm fs (some s) artistArg ext
      = missRun (get_cache_id (queryOf s artistArg)) ext := by
  simp only [stream_pcm]
  rw [if_neg hs]
  simp only [resolveRun]
  rw [hm]

theorem missRun_success (cid : String) (ext : Ext) (v : Video) (tl : List Video)
    (info : Option Nat) (hsi : ext.searchItems = v :: tl)
    (hdl : ext.download = Except.ok info) :
    missRun cid ext =
      ⟨Resp.ok (make_meta_json cid v.channelTitle v.title (info.getD 0) v.thumbHigh),
       (if ext.cookieWritable then [] else [Eff.copyCookie]) ++
        [Eff.fetchedAudio cid v.videoId,
         Eff.openTrunc (FsPath.art cid ArtKind.lrc),
         Eff.writeAll (FsPath.art cid ArtKind.lrc)
           (FileData.text (lyricStage ext v.videoId).1),
         Eff.openTrunc (FsPath.art cid ArtKind.json),
         Eff.writeAll (FsPath.art cid ArtKind.json)
           (FileData.metaFile
             (make_meta_json cid v.channelTitle v.title (info.getD 0) v.thumbHigh))],
       1, 1, 1, (lyricStage ext v.videoId).2⟩ := by
  unfold missRun
  rw [hsi, hdl]

/-- C5: in every run reaching the lyric stage, non-empty primary (YTMusic)
lyrics are used as-is and the transcript fallback is never called; when the
primary chain yields nothing the transcript fallback is called exactly once
with the language priority list `["vi", "en"]`, and only if that call also
fails do the written lyrics settle to the empty string. -/
theorem lyric_primary_before_fallback (fs : Fs) (s : String) (artistArg : Option String)
    (ext : Ext) (v : Video) (tl : List Video) (info : Option Nat)
    (hs : s ≠ "")
    (hm : lookupFs fs (FsPath.art (get_cache_id (queryOf s artistArg)) ArtKind.json) = none)
    (hsi : ext.searchItems = v :: tl)
    (hdl : ext.download = Except.ok info) :
    (primaryLyrics ext ≠ "" →
      (stream_pcm fs (some s) artistArg ext).transcriptCalls = []
      ∧ Eff.writeAll (FsPath.art (get_cache_id (queryOf s artistArg)) ArtKind.lrc)
          (FileData.text (primaryLyrics ext)) ∈ (stream_pcm fs (some s) artistArg ext).effs)
    ∧ (primaryLyrics ext = "" →
      (stream_pcm fs (some s) artistArg ext).transcriptCalls = [(v.videoId, ["vi", "en"])]
      ∧ (∀ u, ext.transcript v.videoId ["vi", "en"] = Except.error u →
          Eff.writeAll (FsPath.art (get_cache_id (queryOf s artistArg)) ArtKind.lrc)
            (FileData.text "") ∈ (stream_pcm fs (some s) artistArg ext).effs)) := by
  rw [stream_pcm_miss fs s artistArg ext hs hm,
    missRun_success _ ext v tl info hsi hdl]
  constructor
  · intro hp
    simp only [lyricStage]
    rw [if_neg hp]
    exact ⟨rfl, by simp⟩
  · intro hp
    simp only [lyricStage]
    rw [if_pos hp]
    refine ⟨rfl, ?_⟩
    intro u hu
    rw [hu]
    simp

/-- C5 witness: a run whose primary source yields `"primary words"` uses it
and never calls the transcript source. -/
theorem lyric_primary_before_fallback_witness :
    (primaryLyrics extPrimaryText ≠ "" →
      (stream_pcm [] (some "a") none extPrimaryText).transcriptCalls = []
      ∧ Eff.writeAll (FsPath.art (get_cache_id (queryOf "a" none)) ArtKind.lrc)
          (FileData.text (primaryLyrics extPrimaryText))
          ∈ (stream_pcm [] (some "a") none extPrimaryText).effs)
    ∧ (primaryLyrics extPrimaryText = "" →
      (stream_pcm [] (some "a") none extPrimaryText).transcriptCalls
        = [(vidA.videoId, ["vi", "en"])]
      ∧ (∀ u, extPrimaryText.transcript vidA.videoId ["vi", "en"] = Except.error u →
          Eff.writeAll (FsPath.art (get_cache_id (queryOf "a" none)) ArtKind.lrc)
            (FileData.text "") ∈ (stream_pcm [] (some "a") none extPrimaryText).effs)) :=
  lyric_primary_before_fallback [] "a" none extPrimaryText vidA [] (some 100)
    (by decide) (by decide) rfl rfl

/-- C6 counterexample: with an exception raised in the primary lyric
sub-stage and a transcript fallback returning `"la la"`, the pipeline
completes successfully but responds with the non-empty fallback lyrics —
refuting the claim that an exception in either sub-stage makes the run
respond with empty-string lyrics. -/
theorem lyric_error_fallback_text_response :
    (stream_pcm [] (some "a") none extPrimaryRaisesFallbackText).resp
      = Resp.ok (make_meta_json (get_cache_id "a") "ChannelA" "TitleA" 100 "thumbA")
    ∧ Eff.writeAll (FsPath.art (get_cache_id "a") ArtKind.lrc) (FileData.text "la la")
        ∈ (stream_pcm [] (some "a") none extPrimaryRaisesFallbackText).effs
    ∧ ("la la" : String) ≠ "" := by
  refine ⟨by decide, by decide, by decide⟩

/-- C6 (amended): in every run reaching the lyric stage the pipeline
completes with a 200 metadata response whatever the lyric oracles do (so any
lyric-stage exception is absorbed and never surfaced as a pipeline error);
and when exceptions leave no lyric text at all — the primary sub-stage raises
and the transcript sub-stage raises too — the lyrics settle to the empty
string. -/
theorem lyric_failures_never_fatal (fs : Fs) (s : String) (artistArg : Option String)
    (ext : Ext) (v : Video) (tl : List Video) (info : Option Nat)
    (hs : s ≠ "")
    (hm : lookupFs fs (FsPath.art (get_cache_id (queryOf s artistArg)) ArtKind.json) = none)
    (hsi : ext.searchItems = v :: tl)
    (hdl : ext.download = Except.ok info) :
    (stream_pcm fs (some s) artistArg ext).resp
      = Resp.ok (make_meta_json (get_cache_id (queryOf s artistArg)) v.channelTitle v.title
          (info.getD 0) v.thumbHigh)
    ∧ (∀ u u2, ext.ytmSearch = Except.error u →
        ext.transcript v.videoId ["vi", "en"] = Except.error u2 →
        Eff.writeAll (FsPath.art (get_cache_id (queryOf s artistArg)) ArtKind.lrc)
          (FileData.text "") ∈ (stream_pcm fs (some s) artistArg ext).effs) := by
  rw [stream_pcm_miss fs s artistArg ext hs hm,
    missRun_success _ ext v tl info hsi hdl]
  refine ⟨rfl, ?_⟩
  intro u u2 hy ht
  have hp : primaryLyrics ext = "" := by
    unfold primaryLyrics
    rw [hy]
  simp only [lyricStage]
  rw [if_pos hp, ht]
  simp

/-- C6 witness: both lyric sub-stages raising still yields a 200 response
with empty-string lyrics. -/
theorem lyric_failures_never_fatal_witness :
    (stream_pcm [] (some "a") none extOkNoLyrics).resp
      = Resp.ok (make_meta_json (get_cache_id (queryOf "a" none)) vidA.channelTitle
          vidA.title ((some 100).getD 0) vidA.thumbHigh)
    ∧ (∀ u u2, extOkNoLyrics.ytmSearch = Except.error u →
        extOkNoLyrics.transcript vidA.videoId ["vi", "en"] = Except.error u2 →
        Eff.writeAll (FsPath.art (get_cache_id (queryOf "a" none)) ArtKind.lrc)
          (FileData.text "") ∈ (stream_pcm [] (some "a") none extOkNoLyrics).effs) :=
  lyric_failures_never_fatal [] "a" none extOkNoLyrics vidA [] (some 100)
    (by decide) (by decide) rfl rfl

/-! ### Atomicity of the metadata write (C4) -/

/-- C4 counterexample: on a concrete successful run the metadata file is
written in place (`open(meta_path, "w")` truncates, then `json.dump` fills
it), so there is an intermediate state in which `<key>.json` exists but is
not a complete metadata record — the write is not atomic
(no write-then-rename), refuting the claim's first half. -/
theorem meta_write_not_atomic :
    metaNeverHalfWritten (stream_pcm [] (some "a") none extOkNoLyrics).effs []
      (get_cache_id "a") = false := by
  decide

/-- C4 (amended): the metadata artifact is written by a plain in-place
open/write — not write-then-rename, so a concurrent reader can observe a
half-written `.json` — but it is the last file written: any interruption
before the metadata write begins (in particular between audio-fetch success
and the metadata write) leaves no `.json` artifact for the key, so a
subsequent identical query re-enters the full pipeline. -/
theorem interruption_leaves_no_json (fs : Fs) (s : String) (artistArg : Option String)
    (ext : Ext) (n : Nat) (hs : s ≠ "")
    (hm : lookupFs fs (FsPath.art (get_cache_id (queryOf s artistArg)) ArtKind.json) = none)
    (hnot : Eff.openTrunc (FsPath.art (get_cache_id (queryOf s artistArg)) ArtKind.json)
        ∉ (stream_pcm fs (some s) artistArg ext).effs.take n) :
    lookupFs (applyEffs ((stream_pcm fs (some s) artistArg ext).effs.take n) fs)
      (FsPath.art (get_cache_id (queryOf s artistArg)) ArtKind.json) = none := by
  rw [stream_pcm_miss fs s artistArg ext hs hm] at hnot ⊢
  unfold missRun at hnot ⊢
  cases hsi : ext.searchItems with
  | nil => simpa [applyEffs] using hm
  | cons v tl =>
    rw [hsi] at hnot
    cases hdl : ext.download with
    | error e =>
      rw [hdl] at hnot
      cases hcw : ext.cookieWritable with
      | true => simpa [applyEffs] using hm
      | false =>
        rcases n with _ | n
        · simpa [applyEffs] using hm
        · simp only [applyEffs, List.take_succ_cons, List.take_nil, List.foldl, applyEff]
          rw [lookupFs_setFs_ne _ _ _ _ (by simp)]
          exact hm
    | ok info =>
      rw [hdl] at hnot
      cases hcw : ext.cookieWritable with
      | true =>
        simp only [if_pos rfl, List.nil_append] at hnot ⊢
        rcases n with _ | _ | _ | _ | _ | n
        · simpa [applyEffs] using hm
        · simp only [applyEffs, List.take_succ_cons, List.take_zero, List.foldl, applyEff]
          rw [lookupFs_setFs_ne _ _ _ _ (by simp)]
          exact hm
        · simp only [applyEffs, List.take_succ_cons, List.take_zero, List.foldl, applyEff]
          rw [lookupFs_setFs_ne _ _ _ _ (by simp),
            lookupFs_setFs_ne _ _ _ _ (by simp)]
          exact hm
        · simp only [applyEffs, List.take_succ_cons, List.take_zero, List.foldl, applyEff]
          rw [lookupFs_setFs_ne _ _ _ _ (by simp),
            lookupFs_setFs_ne _ _ _ _ (by simp),
            lookupFs_setFs_ne _ _ _ _ (by simp)]
          exact hm
        · rw [hcw] at hnot
          simp at hnot
        · rw [hcw] at hnot
          simp at hnot
      | false =>
        rw [hcw] at hnot
        simp only [Bool.false_eq_true, if_false, List.cons_append, List.nil_append] at hnot ⊢
        rcases n with _ | _ | _ | _ | _ | _ | n
        · simpa [applyEffs] using hm
        · simp only [applyEffs, List.take_succ_cons, List.take_zero, List.foldl, applyEff]
          rw [lookupFs_setFs_ne _ _ _ _ (by simp)]
          exact hm
        · simp only [applyEffs, List.take_succ_cons, List.take_zero, List.foldl, applyEff]
          rw [lookupFs_setFs_ne _ _ _ _ (by simp),
            lookupFs_setFs_ne _ _ _ _ (by simp)]
          exact hm
        · simp only [applyEffs, List.take_succ_cons, List.take_zero, List.foldl, applyEff]
          rw [lookupFs_setFs_ne _ _ _ _ (by simp),
            lookupFs_setFs_ne _ _ _ _ (by simp),
            lookupFs_setFs_ne _ _ _ _ (by simp)]
          exact hm
        · simp only [applyEffs, List.take_succ_cons, List.take_zero, List.foldl, applyEff]
          rw [lookupFs_setFs_ne _ _ _ _ (by simp),
            lookupFs_setFs_ne _ _ _ _ (by simp),
            lookupFs_setFs_ne _ _ _ _ (by simp),
            lookupFs_setFs_ne _ _ _ _ (by simp)]
          exact hm
        · simp at hnot
        · simp at hnot

/-- C4 witness: the amended theorem at a concrete successful run, truncated
right after the audio fetch and the lyric write. -/
theorem interruption_leaves_no_json_witness :
    lookupFs (applyEffs ((stream_pcm [] (some "a") none extOkNoLyrics).effs.take 3) [])
      (FsPath.art (get_cache_id (queryOf "a" none)) ArtKind.json) = none :=
  interruption_leaves_no_json [] "a" none extOkNoLyrics 3 (by decide) (by decide)
    (by decide)

/-! ### The metadata-implies-lyrics invariant (C10) -/

theorem cacheInv_setFs_other (fs : Fs) (q : FsPath) (d : FileData)
    (hq : ∀ id, q ≠ FsPath.art id ArtKind.json) (h : CacheInv fs) :
    CacheInv (setFs q d fs) := by
  intro id hj
  rw [lookupFs_setFs_ne fs _ q d (hq id)] at hj
  exact lookupFs_isSome_setFs fs _ q d (h id hj)

theorem cacheInv_setFs_json (fs : Fs) (c : String) (d : FileData)
    (hl : (lookupFs fs (FsPath.art c ArtKind.lrc)).isSome) (h : CacheInv fs) :
    CacheInv (setFs (FsPath.art c ArtKind.json) d fs) := by
  intro id hj
  apply lookupFs_isSome_setFs
  by_cases hic : id = c
  · subst hic
    exact hl
  · rw [lookupFs_setFs_ne fs _ _ d
      (fun he => hic (FsPath.art.inj he).1.symm)] at hj
    exact h id hj

/-- C10: at every intermediate point of every `stream_pcm` run, if the
invariant "a key's `.json` artifact exists only if its `.lrc` artifact
exists" held at the start, it still holds: the lyrics file is written
strictly before the metadata file and no effect ever deletes an artifact. -/
theorem json_implies_lrc_invariant (fs : Fs) (song artistArg : Option String)
    (ext : Ext) (h : CacheInv fs) (n : Nat) :
    CacheInv (applyEffs ((stream_pcm fs song artistArg ext).effs.take n) fs) := by
  cases song with
  | none => simpa [stream_pcm, applyEffs] using h
  | some s =>
    by_cases hs : s = ""
    · simpa [stream_pcm, hs, applyEffs] using h
    · simp only [stream_pcm]
      rw [if_neg hs]
      simp only [resolveRun]
      cases hlk : lookupFs fs
          (FsPath.art (get_cache_id (queryOf s artistArg)) ArtKind.json) with
      | some fd => cases fd <;> simpa [applyEffs] using h
      | none =>
        unfold missRun
        cases hsi : ext.searchItems with
        | nil => simpa [applyEffs] using h
        | cons v tl =>
          cases hdl : ext.download with
          | error e =>
            cases hcw : ext.cookieWritable with
            | true => simpa [applyEffs] using h
            | false =>
              rcases n with _ | n
              · exact h
              · show CacheInv (applyEffs (List.take (n + 1) [Eff.copyCookie]) fs)
                rw [List.take_succ_cons, List.take_nil]
                exact cacheInv_setFs_other fs _ _ (fun id => by simp) h
          | ok info =>
            have h1 : CacheInv (setFs (FsPath.art (get_cache_id (queryOf s artistArg))
                ArtKind.mp3) (FileData.audio v.videoId) fs) :=
              cacheInv_setFs_other fs _ _ (fun id => by simp) h
            have h2 := cacheInv_setFs_other _
              (FsPath.art (get_cache_id (queryOf s artistArg)) ArtKind.lrc)
              FileData.truncated (fun id => by simp) h1
            have h3 := cacheInv_setFs_other _
              (FsPath.art (get_cache_id (queryOf s artistArg)) ArtKind.lrc)
              (FileData.text (lyricStage ext v.videoId).1) (fun id => by simp) h2
            have hl3 : (lookupFs (setFs (FsPath.art (get_cache_id (queryOf s artistArg))
                ArtKind.lrc) (FileData.text (lyricStage ext v.videoId).1)
                (setFs (FsPath.art (get_cache_id (queryOf s artistArg)) ArtKind.lrc)
                  FileData.truncated
                  (setFs (FsPath.art (get_cache_id (queryOf s artistArg)) ArtKind.mp3)
                    (FileData.audio v.videoId) fs)))
                (FsPath.art (get_cache_id (queryOf s artistArg)) ArtKind.lrc)).isSome := by
              rw [lookupFs_setFs_eq]
              rfl
            have h4 := cacheInv_setFs_json _ (get_cache_id (queryOf s artistArg))
              FileData.truncated hl3 h3
            have hl4 : (lookupFs (setFs (FsPath.art (get_cache_id (queryOf s artistArg))
                ArtKind.json) FileData.truncated
                (setFs (FsPath.art (get_cache_id (queryOf s artistArg)) ArtKind.lrc)
                  (FileData.text (lyricStage ext v.videoId).1)
                  (setFs (FsPath.art (get_cache_id (queryOf s artistArg)) ArtKind.lrc)
                    FileData.truncated
                    (setFs (FsPath.art (get_cache_id (queryOf s artistArg)) ArtKind.mp3)
                      (FileData.audio v.videoId) fs))))
                (FsPath.art (get_cache_id (queryOf s artistArg)) ArtKind.lrc)).isSome := by
              rw [lookupFs_setFs_ne _ _ _ _ (by simp), lookupFs_setFs_eq]
              rfl
            have h5 := cacheInv_setFs_json _ (get_cache_id (queryOf s artistArg))
              (FileData.metaFile (make_meta_json (get_cache_id (queryOf s artistArg))
                v.channelTitle v.title (info.getD 0) v.thumbHigh)) hl4 h4
            cases hcw : ext.cookieWritable with
            | true =>
              rcases n with _ | _ | _ | _ | _ | n
              · exact h
              · exact h1
              · exact h2
              · exact h3
              · exact h4
              · show CacheInv (applyEffs (List.take (n + 1 + 1 + 1 + 1 + 1)
                  [Eff.fetchedAudio (get_cache_id (queryOf s artistArg)) v.videoId,
                   Eff.openTrunc (FsPath.art (get_cache_id (queryOf s artistArg)) ArtKind.lrc),
                   Eff.writeAll (FsPath.art (get_cache_id (queryOf s artistArg)) ArtKind.lrc)
                     (FileData.text (lyricStage ext v.videoId).1),
                   Eff.openTrunc (FsPath.art (get_cache_id (queryOf s artistArg)) ArtKind.json),
                   Eff.writeAll (FsPath.art (get_cache_id (queryOf s artistArg)) ArtKind.json)
                     (FileData.metaFile (make_meta_json (get_cache_id (queryOf s artistArg))
                       v.channelTitle v.title (info.getD 0) v.thumbHigh))]) fs)
                rw [List.take_succ_cons, List.take_succ_cons, List.take_succ_cons,
                  List.take_succ_cons, List.take_succ_cons, List.take_nil]
                exact h5
            | false =>
              have h0c : CacheInv (setFs FsPath.cookieCopy FileData.cookie fs) :=
                cacheInv_setFs_other fs _ _ (fun id => by simp) h
              have h1c := cacheInv_setFs_other _
                (FsPath.art (get_cache_id (queryOf s artistArg)) ArtKind.mp3)
                (FileData.audio v.videoId) (fun id => by simp) h0c
              have h2c := cacheInv_setFs_other _
                (FsPath.art (get_cache_id (queryOf s artistArg)) ArtKind.lrc)
                FileData.truncated (fun id => by simp) h1c
              have h3c := cacheInv_setFs_other _
                (FsPath.art (get_cache_id (queryOf s artistArg)) ArtKind.lrc)
                (FileData.text (lyricStage ext v.videoId).1) (fun id => by simp) h2c
              have hl3c : (lookupFs (setFs (FsPath.art (get_cache_id (queryOf s artistArg))
                  ArtKind.lrc) (FileData.text (lyricStage ext v.videoId).1)
                  (setFs (FsPath.art (get_cache_id (queryOf s artistArg)) ArtKind.lrc)
                    FileData.truncated
                    (setFs (FsPath.art (get_cache_id (queryOf s artistArg)) ArtKind.mp3)
                      (FileData.audio v.videoId)
                      (setFs FsPath.cookieCopy FileData.cookie fs))))
                  (FsPath.art (get_cache_id (queryOf s artistArg)) ArtKind.lrc)).isSome := by
                rw [lookupFs_setFs_eq]
                rfl
              have h4c := cacheInv_setFs_json _ (get_cache_id (queryOf s artistArg))
                FileData.truncated hl3c h3c
              have hl4c : (lookupFs (setFs (FsPath.art (get_cache_id (queryOf s artistArg))
                  ArtKind.json) FileData.truncated
                  (setFs (FsPath.art (get_cache_id (queryOf s artistArg)) ArtKind.lrc)
                    (FileData.text (lyricStage ext v.videoId).1)
                    (setFs (FsPath.art (get_cache_id (queryOf s artistArg)) ArtKind.lrc)
                      FileData.truncated
                      (setFs (FsPath.art (get_cache_id (queryOf s artistArg)) ArtKind.mp3)
                        (FileData.audio v.videoId)
                        (setFs FsPath.cookieCopy FileData.cookie fs)))))
                  (FsPath.art (get_cache_id (queryOf s artistArg)) ArtKind.lrc)).isSome := by
                rw [lookupFs_setFs_ne _ _ _ _ (by simp), lookupFs_setFs_eq]
                rfl
              have h5c := cacheInv_setFs_json _ (get_cache_id (queryOf s artistArg))
                (FileData.metaFile (make_meta_json (get_cache_id (queryOf s artistArg))
                  v.channelTitle v.title (info.getD 0) v.thumbHigh)) hl4c h4c
              rcases n with _ | _ | _ | _ | _ | _ | n
              · exact h
              · exact h0c
              · exact h1c
              · exact h2c
              · exact h3c
              · exact h4c
              · show CacheInv (applyEffs (List.take (n + 1 + 1 + 1 + 1 + 1 + 1)
                  [Eff.copyCookie,
                   Eff.fetchedAudio (get_cache_id (queryOf s artistArg)) v.videoId,
                   Eff.openTrunc (FsPath.art (get_cache_id (queryOf s artistArg)) ArtKind.lrc),
                   Eff.writeAll (FsPath.art (get_cache_id (queryOf s artistArg)) ArtKind.lrc)
                     (FileData.text (lyricStage ext v.videoId).1),
                   Eff.openTrunc (FsPath.art (get_cache_id (queryOf s artistArg)) ArtKind.json),
                   Eff.writeAll (FsPath.art (get_cache_id (queryOf s artistArg)) ArtKind.json)
                     (FileData.metaFile (make_meta_json (get_cache_id (queryOf s artistArg))
                       v.channelTitle v.title (info.getD 0) v.thumbHigh))]) fs)
                rw [List.take_succ_cons, List.take_succ_cons, List.take_succ_cons,
                  List.take_succ_cons, List.take_succ_cons, List.take_succ_cons, List.take_nil]
                exact h5c

/-- C10 witness: the invariant, holding trivially on the empty filesystem,
still holds three effects into a concrete successful run. -/
theorem json_implies_lrc_invariant_witness :
    CacheInv (applyEffs ((stream_pcm [] (some "a") none extOkNoLyrics).effs.take 3) []) :=
  json_implies_lrc_invariant [] (some "a") none extOkNoLyrics
    (fun id hj => by simp [lookupFs] at hj) 3

end MusicServer
